import Mathlib

/-!
Verification of the MCP-over-MQTT C++ server SDK (mcp-over-mqtt-cpp-sdk).

This file gives a shallow embedding of the SDK's protocol engine
(src/mcp_server.cpp), JSON-RPC codec (src/json_rpc.cpp) and tool registry
(src/tool_manager.cpp), and proves or refutes the frozen claims about it.

Modelling conventions:
- nlohmann::json values are modelled by the inductive `Json`.  Objects are
  association lists; nlohmann stores object keys in sorted order (std::map),
  and every object literal below is written with its keys in that order.
- A C++ conversion `std::string s = j;` throws nlohmann type_error 302 when
  `j` is not a string; this is modelled by `Json.asStringE : Json -> Except
  String String`.  Handlers that perform such conversions therefore return
  `Except String (ServerState x List MqttAction)`; a `.error` value models a
  C++ exception escaping the handler (the engine installs no try/catch).
- Side effects on the MQTT transport (subscribe / unsubscribe / publish) and
  user-callback invocations are recorded as a trace of `MqttAction`s.
- MQTT payload strings are abstracted by `WirePayload`: the engine only ever
  asks whether the payload is empty (`payload.empty()`) and whether it parses
  as JSON (`JsonRpc::parse`), so a payload is `empty`, `malformed` (nonempty,
  not JSON) or `wellFormed j` (nonempty, parses to `j`).
- `std::map` (sessions, tools, handlers, user properties) is modelled by
  association lists sorted by key, with `mapInsert` / `mapErase` / `mapFind`.
-/

namespace McpMqtt

/-! ## JSON values (model of nlohmann::json) -/

inductive Json where
  | null : Json
  | bool : Bool → Json
  | num : Int → Json
  | str : String → Json
  | arr : List Json → Json
  | obj : List (String × Json) → Json

/-- nlohmann `j.contains(k)`: false on non-objects. -/
def Json.contains (j : Json) (k : String) : Bool :=
  match j with
  | .obj fields => fields.any (fun e => e.1 == k)
  | _ => false

/-- nlohmann `j[k]` read on an object (only ever called under a
`contains` guard in the source, mirroring the code). -/
def Json.get (j : Json) (k : String) : Json :=
  match j with
  | .obj fields =>
    match fields.find? (fun e => e.1 == k) with
    | some e => e.2
    | none => Json.null
  | _ => Json.null

/-- nlohmann `j.is_string()`. -/
def Json.isStr (j : Json) : Bool :=
  match j with
  | .str _ => true
  | _ => false

/-- The C++ conversion `std::string s = j;` — throws nlohmann type_error 302
when `j` is not a string. -/
def Json.asStringE (j : Json) : Except String String :=
  match j with
  | .str s => Except.ok s
  | _ => Except.error "nlohmann type_error 302: type must be string"

/-- nlohmann `j == "<literal>"` (json-to-string equality: true iff `j` is a
string with that value). -/
def Json.isStrEq (j : Json) (s : String) : Bool :=
  match j with
  | .str t => t == s
  | _ => false

/-- nlohmann `j.value(k, dflt)` for a string default: throws 306 on
non-objects, throws 302 when the key holds a non-string, otherwise the value
or the default. -/
def Json.valueStr (j : Json) (k : String) (dflt : String) : Except String String :=
  match j with
  | .obj fields =>
    match fields.find? (fun e => e.1 == k) with
    | some e => e.2.asStringE
    | none => Except.ok dflt
  | _ => Except.error "nlohmann type_error 306: cannot use value() with this type"

/-- nlohmann `j.value(k, dflt)` for a json default (no conversion, so no 302;
only ever called on objects in the source). -/
def Json.valueJ (j : Json) (k : String) (dflt : Json) : Json :=
  match j with
  | .obj fields =>
    match fields.find? (fun e => e.1 == k) with
    | some e => e.2
    | none => dflt
  | _ => dflt

/-! ## JSON serialization (model of nlohmann dump(), used by JsonRpc::serialize) -/

/-- Escape one character as nlohmann dump() does for the characters that can
occur in this development (payloads are printable ASCII). -/
def escapeChar (c : Char) : String :=
  if c = '\x22' then "\\\""
  else if c = '\\' then "\\\\"
  else if c = '\n' then "\\n"
  else if c = '\t' then "\\t"
  else if c = '\r' then "\\r"
  else String.singleton c

def escapeString (s : String) : String :=
  String.join (s.toList.map escapeChar)

mutual

def Json.render : Json → String
  | .null => "null"
  | .bool b => if b then "true" else "false"
  | .num n => toString n
  | .str s => "\"" ++ escapeString s ++ "\""
  | .arr xs => "[" ++ Json.renderList xs ++ "]"
  | .obj fields => "\x7b" ++ Json.renderFields fields ++ "\x7d"

def Json.renderList : List Json → String
  | [] => ""
  | [x] => x.render
  | x :: xs => x.render ++ "," ++ Json.renderList xs

def Json.renderFields : List (String × Json) → String
  | [] => ""
  | [e] => "\"" ++ escapeString e.1 ++ "\":" ++ e.2.render
  | e :: es => "\"" ++ escapeString e.1 ++ "\":" ++ e.2.render ++ "," ++ Json.renderFields es

end

/-! ## Strings (structural versions of the std::string operations used;
topics and payloads are ASCII, where bytes and characters coincide) -/

/-- std::string lexicographic comparison (the std::map key order). -/
def charListLt : List Char → List Char → Bool
  | [], [] => false
  | [], _ :: _ => true
  | _ :: _, [] => false
  | a :: as, b :: bs =>
    if a < b then true
    else if b < a then false
    else charListLt as bs

/-- `a < b` on std::string. -/
def strLt (a b : String) : Bool := charListLt a.data b.data

/-- `topic.rfind(p, 0) == 0` / `topic.find(p) == 0` — the topic starts with
the given literal. -/
def strStartsWith (s pre : String) : Bool := pre.data.isPrefixOf s.data

/-- `s.substr(n)` (drop the first n characters). -/
def strDrop (s : String) (n : Nat) : String := ⟨s.data.drop n⟩

/-- `s.find(c) != npos`. -/
def strContainsChar (s : String) (c : Char) : Bool := s.data.contains c

/-- `s.substr(0, s.find(c))` for the first stretch not containing `c`. -/
def strTakeWhile (s : String) (p : Char → Bool) : String := ⟨s.data.takeWhile p⟩

/-! ## Sorted association lists (model of std::map with string keys) -/

/-- `std::map` lookup (`find`). -/
def mapFind (k : String) : List (String × α) → Option α
  | [] => none
  | e :: es => if e.1 == k then some e.2 else mapFind k es

/-- `std::map` insert-or-assign (`m[k] = v`), keeping keys sorted as
std::map does. -/
def mapInsert (k : String) (v : α) : List (String × α) → List (String × α)
  | [] => [(k, v)]
  | e :: es =>
    if strLt k e.1 then (k, v) :: e :: es
    else if k == e.1 then (k, v) :: es
    else e :: mapInsert k v es

/-- `std::map` erase by key (idempotent). -/
def mapErase (k : String) : List (String × α) → List (String × α)
  | [] => []
  | e :: es => if e.1 == k then es else e :: mapErase k es

/-! ## Protocol constants (include/mcp_mqtt/types.h) -/

def JSONRPC_VERSION : String := "2.0"
def MCP_PROTOCOL_VERSION : String := "2024-11-05"
def USER_PROP_COMPONENT_TYPE : String := "MCP-COMPONENT-TYPE"
def USER_PROP_MQTT_CLIENT_ID : String := "MCP-MQTT-CLIENT-ID"
def COMPONENT_TYPE_SERVER : String := "mcp-server"

/-! ## JSON-RPC codec (src/json_rpc.cpp) -/

/-- `JsonRpcId = std::variant<std::monostate, int64_t, std::string>`;
`empty` is the monostate (notification marker). -/
inductive JsonRpcId where
  | empty : JsonRpcId
  | int : Int → JsonRpcId
  | str : String → JsonRpcId
deriving DecidableEq

/-- `JsonRpc::jsonToId` (json_rpc.cpp lines 125-134). -/
def jsonToId (j : Json) : JsonRpcId :=
  match j with
  | .null => JsonRpcId.empty
  | .num n => JsonRpcId.int n
  | .str s => JsonRpcId.str s
  | _ => JsonRpcId.empty

/-- `JsonRpc::idToJson` (json_rpc.cpp lines 115-123). -/
def idToJson (id : JsonRpcId) : Json :=
  match id with
  | JsonRpcId.empty => Json.null
  | JsonRpcId.int n => Json.num n
  | JsonRpcId.str s => Json.str s

/-- `JsonRpc::serialize` = `j.dump()`. -/
def serialize (j : Json) : String := j.render

structure JsonRpcRequest where
  method : String
  id : JsonRpcId := JsonRpcId.empty
  params : Option Json := none

/-- `JsonRpcRequest::fromJson` (json_rpc.cpp lines 6-32).  The guards ensure
no conversion inside can throw, so the C++ catch-all never fires and the
model is a total `Option`. -/
def JsonRpcRequest.fromJson (j : Json) : Option JsonRpcRequest :=
  if !(j.contains "jsonrpc") || !((j.get "jsonrpc").isStrEq JSONRPC_VERSION) then
    none
  else if !(j.contains "method") || !((j.get "method").isStr) then
    none
  else
    match (j.get "method").asStringE with
    | Except.ok m =>
      some { method := m
             id := if j.contains "id" then jsonToId (j.get "id") else JsonRpcId.empty
             params := if j.contains "params" then some (j.get "params") else none }
    | Except.error _ => none

/-- `JsonRpcRequest::isNotification` (json_rpc.cpp lines 50-52): true iff the
id is the monostate.  (Defined in the source but never called by the engine.) -/
def JsonRpcRequest.isNote (r : JsonRpcRequest) : Bool :=
  match r.id with
  | JsonRpcId.empty => true
  | _ => false

structure JsonRpcResponse where
  id : JsonRpcId
  result : Option Json := none
  error : Option Json := none

/-- `JsonRpcResponse::success`. -/
def JsonRpcResponse.success (id : JsonRpcId) (result : Json) : JsonRpcResponse :=
  { id := id, result := some result, error := none }

/-- `JsonRpcResponse::errorResponse` (data argument always absent in the
engine's calls). -/
def JsonRpcResponse.errorResponse (id : JsonRpcId) (code : Int) (message : String) :
    JsonRpcResponse :=
  { id := id, result := none,
    error := some (Json.obj [("code", Json.num code), ("message", Json.str message)]) }

/-- `JsonRpcResponse::toJson` (object keys shown in nlohmann's sorted order:
error < id < jsonrpc < result). -/
def JsonRpcResponse.toJson (r : JsonRpcResponse) : Json :=
  match r.result with
  | some res =>
    Json.obj [("id", idToJson r.id), ("jsonrpc", Json.str JSONRPC_VERSION), ("result", res)]
  | none =>
    match r.error with
    | some err =>
      Json.obj [("error", err), ("id", idToJson r.id), ("jsonrpc", Json.str JSONRPC_VERSION)]
    | none =>
      Json.obj [("id", idToJson r.id), ("jsonrpc", Json.str JSONRPC_VERSION)]

structure JsonRpcNote where
  method : String
  params : Option Json := none

/-- `JsonRpcNotification::create`. -/
def JsonRpcNote.create (method : String) (params : Option Json := none) : JsonRpcNote :=
  { method := method, params := params }

/-- `JsonRpcNotification::toJson` (keys sorted: jsonrpc < method < params). -/
def JsonRpcNote.toJson (n : JsonRpcNote) : Json :=
  match n.params with
  | some p => Json.obj [("jsonrpc", Json.str JSONRPC_VERSION), ("method", Json.str n.method), ("params", p)]
  | none => Json.obj [("jsonrpc", Json.str JSONRPC_VERSION), ("method", Json.str n.method)]

/-- JsonRpcError reserved codes used by the engine. -/
def METHOD_NOT_FOUND : Int := -32601
def INVALID_PARAMS : Int := -32602

/-! ## Data model (include/mcp_mqtt/types.h) -/

structure ServerInfo where
  name : String
  version : String

structure ClientInfo where
  name : String := ""
  version : String := ""
deriving DecidableEq

structure ServerCapabilities where
  tools : Bool := true
  toolsListChanged : Bool := false

/-- `ServerCapabilities::toJson` (types.h lines 52-61). -/
def ServerCapabilities.toJson (c : ServerCapabilities) : Json :=
  if c.tools then
    if c.toolsListChanged then
      Json.obj [("tools", Json.obj [("listChanged", Json.bool true)])]
    else
      Json.obj [("tools", Json.obj [])]
  else
    Json.obj []

structure ToolInputSchema where
  type : String := "object"
  properties : Json := Json.obj []
  required : List String := []

/-- `ToolInputSchema::toJson` (types.h lines 70-80).  nlohmann key order:
properties < required < type. -/
def ToolInputSchema.toJson (s : ToolInputSchema) : Json :=
  let base := [("type", Json.str s.type)]
  let withReq :=
    if s.required.isEmpty then base
    else ("required", Json.arr (s.required.map Json.str)) :: base
  let withProps :=
    match s.properties with
    | Json.obj [] => withReq
    | p => ("properties", p) :: withReq
  Json.obj withProps

structure Tool where
  name : String
  description : String := ""
  inputSchema : ToolInputSchema := {}

/-- `Tool::toJson` (types.h lines 89-95).  nlohmann key order:
description < inputSchema < name. -/
def Tool.toJson (t : Tool) : Json :=
  Json.obj [("description", Json.str t.description),
            ("inputSchema", t.inputSchema.toJson),
            ("name", Json.str t.name)]

structure ToolResultContent where
  type : String := "text"
  text : String := ""
deriving DecidableEq

/-- `ToolResultContent::toJson` (keys sorted: text < type). -/
def ToolResultContent.toJson (c : ToolResultContent) : Json :=
  Json.obj [("text", Json.str c.text), ("type", Json.str c.type)]

structure ToolCallResult where
  content : List ToolResultContent := []
  isError : Bool := false
deriving DecidableEq

/-- `ToolCallResult::toJson` (types.h lines 116-126): the isError key is
emitted only when true.  Keys sorted: content < isError. -/
def ToolCallResult.toJson (r : ToolCallResult) : Json :=
  if r.isError then
    Json.obj [("content", Json.arr (r.content.map ToolResultContent.toJson)),
              ("isError", Json.bool true)]
  else
    Json.obj [("content", Json.arr (r.content.map ToolResultContent.toJson))]

/-- `ToolCallResult::success`. -/
def ToolCallResult.succeed (text : String) : ToolCallResult :=
  { content := [{ type := "text", text := text }], isError := false }

/-- `ToolCallResult::error`. -/
def ToolCallResult.failure (errorMessage : String) : ToolCallResult :=
  { content := [{ type := "text", text := errorMessage }], isError := true }

structure ServerOnlineParams where
  description : String := ""
  meta : Option Json := none

/-- `ServerOnlineParams::toJson` (keys sorted: description < meta). -/
def ServerOnlineParams.toJson (p : ServerOnlineParams) : Json :=
  match p.meta with
  | some m => Json.obj [("description", Json.str p.description), ("meta", m)]
  | none => Json.obj [("description", Json.str p.description)]

structure ClientSession where
  mcpClientId : String := ""
  protocolVersion : String := ""
  clientInfo : ClientInfo := {}
  capabilities : Json := Json.null
  initialized : Bool := false

/-! ## Tool registry (src/tool_manager.cpp) -/

/-- The outcome of invoking a C++ tool handler: a normal return, a thrown
`std::exception` carrying `e.what()`, or a foreign throw caught by
`catch (...)`. -/
inductive HandlerOutcome where
  | ok : ToolCallResult → HandlerOutcome
  | exn : String → HandlerOutcome
  | panicOther : HandlerOutcome

def ToolHandler : Type := Json → HandlerOutcome

structure ToolManager where
  tools : List (String × Tool) := []
  handlers : List (String × ToolHandler) := []

/-- `ToolManager::registerTool` (tool_manager.cpp lines 6-16): rejected when
the name is already present, else inserted into both maps. -/
def ToolManager.registerTool (m : ToolManager) (tool : Tool) (handler : ToolHandler) :
    Bool × ToolManager :=
  match mapFind tool.name m.tools with
  | some _ => (false, m)
  | none =>
    (true, { tools := mapInsert tool.name tool m.tools,
             handlers := mapInsert tool.name handler m.handlers })

/-- `ToolManager::unregisterTool` (tool_manager.cpp lines 18-22). -/
def ToolManager.unregisterTool (m : ToolManager) (name : String) : ToolManager :=
  { tools := mapErase name m.tools, handlers := mapErase name m.handlers }

/-- `ToolManager::getTools` (tool_manager.cpp lines 24-32): the values of the
tools map in iteration (key) order. -/
def ToolManager.getTools (m : ToolManager) : List Tool :=
  m.tools.map (fun e => e.2)

/-- `ToolManager::hasTool`. -/
def ToolManager.hasTool (m : ToolManager) (name : String) : Bool :=
  (mapFind name m.tools).isSome

/-- `ToolManager::callTool` (tool_manager.cpp lines 39-57). -/
def ToolManager.callTool (m : ToolManager) (name : String) (arguments : Json) :
    ToolCallResult :=
  match mapFind name m.handlers with
  | none => ToolCallResult.failure ("Tool not found: " ++ name)
  | some h =>
    match h arguments with
    | HandlerOutcome.ok r => r
    | HandlerOutcome.exn what => ToolCallResult.failure ("Tool execution error: " ++ what)
    | HandlerOutcome.panicOther => ToolCallResult.failure "Unknown error during tool execution"

/-- `ToolManager::getToolsJson` (tool_manager.cpp lines 59-66). -/
def ToolManager.getToolsJson (m : ToolManager) : Json :=
  Json.arr (m.tools.map (fun e => e.2.toJson))

/-- The std::map representation invariant for the registry: keys strictly
sorted, and each stored tool is keyed by its own name (registerTool inserts
at `tool.name`). -/
def ToolManager.WF (m : ToolManager) : Prop :=
  List.Chain' (fun a b => strLt a.1 b.1 = true) m.tools ∧ ∀ e ∈ m.tools, (e.2).name = e.1

/-! ## Protocol engine state and effect trace (src/mcp_server.cpp) -/

/-- Observable effects of the engine: MQTT transport calls and user-callback
invocations, in program order. -/
inductive MqttAction where
  | subscribe : String → Nat → Bool → MqttAction
  | unsubscribe : String → MqttAction
  | publish : String → String → Nat → Bool → List (String × String) → MqttAction
  | clientConnected : String → ClientInfo → MqttAction
  | clientDisconnected : String → MqttAction
deriving DecidableEq

/-- An inbound MQTT payload string, abstracted by the only two questions the
engine asks of it: `payload.empty()` and `JsonRpc::parse(payload)`.
(`empty` never parses; `malformed` is nonempty and fails to parse;
`wellFormed j` is nonempty and parses to `j`.) -/
inductive WirePayload where
  | empty : WirePayload
  | malformed : WirePayload
  | wellFormed : Json → WirePayload

/-- `JsonRpc::parse` on the abstracted payload. -/
def WirePayload.parse : WirePayload → Option Json
  | .wellFormed j => some j
  | _ => none

/-- `payload.empty()` on the abstracted payload. -/
def WirePayload.isEmptyStr : WirePayload → Bool
  | .empty => true
  | _ => false

structure MqttIncomingMessage where
  topic : String
  payload : WirePayload
  qos : Nat := 1
  retained : Bool := false
  userProperties : List (String × String) := []

/-- The engine's state between deliveries.  The two `has*Callback` flags
model whether the user installed the corresponding std::function (the code
guards each invocation with `if (callback_)`). -/
structure ServerState where
  serverId : String
  serverName : String
  serverInfo : ServerInfo := { name := "", version := "" }
  capabilities : ServerCapabilities := {}
  onlineParams : ServerOnlineParams := {}
  sessions : List (String × ClientSession) := []
  toolMgr : ToolManager := {}
  hasConnectedCallback : Bool := false
  hasDisconnectedCallback : Bool := false

/-! Topic construction and parsing (mcp_server.cpp lines 499-539). -/

def getControlTopic (s : ServerState) : String :=
  "$mcp-server/" ++ s.serverId ++ "/" ++ s.serverName

def getPresenceTopic (s : ServerState) : String :=
  "$mcp-server/presence/" ++ s.serverId ++ "/" ++ s.serverName

def getRpcTopic (s : ServerState) (mcpClientId : String) : String :=
  "$mcp-rpc/" ++ mcpClientId ++ "/" ++ s.serverId ++ "/" ++ s.serverName

def getClientPresenceTopic (mcpClientId : String) : String :=
  "$mcp-client/presence/" ++ mcpClientId

/-- `McpServer::isMcpTopic` (mcp_server.cpp lines 200-204). -/
def isMcpTopic (topic : String) : Bool :=
  strStartsWith topic "$mcp-server/" || strStartsWith topic "$mcp-client/" ||
  strStartsWith topic "$mcp-rpc/"

/-- `McpServer::parseClientIdFromRpcTopic` (lines 515-529): the segment
between "$mcp-rpc/" and the next slash. -/
def parseClientIdFromRpcTopic (topic : String) : Option String :=
  if strStartsWith topic "$mcp-rpc/" then
    let rest := strDrop topic "$mcp-rpc/".length
    if strContainsChar rest '/' then some (strTakeWhile rest (fun c => c != '/'))
    else none
  else none

/-- `McpServer::parseClientIdFromPresenceTopic` (lines 531-539): everything
after "$mcp-client/presence/". -/
def parseClientIdFromPresenceTopic (topic : String) : Option String :=
  if strStartsWith topic "$mcp-client/presence/" then
    some (strDrop topic "$mcp-client/presence/".length)
  else none

/-- The user-property map attached to server publishes (std::map iteration
order: "MCP-COMPONENT-TYPE" sorts before "MCP-MQTT-CLIENT-ID"). -/
def serverProps (s : ServerState) : List (String × String) :=
  [(USER_PROP_COMPONENT_TYPE, COMPONENT_TYPE_SERVER),
   (USER_PROP_MQTT_CLIENT_ID, s.serverId)]

/-- `McpServer::sendResponse` (mcp_server.cpp lines 541-553). -/
def sendResponseAction (s : ServerState) (mcpClientId : String) (response : JsonRpcResponse) :
    MqttAction :=
  MqttAction.publish (getRpcTopic s mcpClientId) (serialize response.toJson) 1 false
    (serverProps s)

/-- `McpServer::sendNotification` (mcp_server.cpp lines 555-567). -/
def sendNotificationAction (s : ServerState) (mcpClientId : String) (n : JsonRpcNote) :
    MqttAction :=
  MqttAction.publish (getRpcTopic s mcpClientId) (serialize n.toJson) 1 false (serverProps s)

/-- `McpServer::publishPresence` (mcp_server.cpp lines 152-165): retained
publish of the online notification, with the server user properties. -/
def publishPresenceAction (s : ServerState) : MqttAction :=
  MqttAction.publish (getPresenceTopic s)
    (serialize (JsonRpcNote.create "notifications/server/online" (some s.onlineParams.toJson)).toJson)
    1 true (serverProps s)

/-- `McpServer::clearPresence` (mcp_server.cpp lines 167-174): empty retained
publish; the source passes an EMPTY property map here. -/
def clearPresenceAction (s : ServerState) : MqttAction :=
  MqttAction.publish (getPresenceTopic s) "" 1 true []

/-- `McpServer::stop` (mcp_server.cpp lines 71-99), as a state transition plus
effect trace: a disconnect notification per live session, sessions cleared,
presence cleared, then `cleanupSubscriptions` — which runs after the session
map was already cleared, so it only unsubscribes the control topic. -/
def stopServer (s : ServerState) : ServerState × List MqttAction :=
  let notifs := s.sessions.map
    (fun e => sendNotificationAction s e.1 (JsonRpcNote.create "notifications/disconnected"))
  let s1 := { s with sessions := [] }
  (s1, notifs ++ [clearPresenceAction s, MqttAction.unsubscribe (getControlTopic s)])

/-! ## Session lifecycle handlers (src/mcp_server.cpp) -/

/-- `McpServer::cleanupClientSession` (mcp_server.cpp lines 569-597).  When
no session entry exists the function RETURNS EARLY: no unsubscribe, no
callback. -/
def cleanupClientSession (s : ServerState) (mcpClientId : String) :
    ServerState × List MqttAction :=
  match mapFind mcpClientId s.sessions with
  | none => (s, [])
  | some _ =>
    -- the session's clientInfo is copied in the source but the callback
    -- receives only the client id, so the copy is not observable here
    let s' := { s with sessions := mapErase mcpClientId s.sessions }
    let acts := [MqttAction.unsubscribe (getRpcTopic s mcpClientId),
                 MqttAction.unsubscribe (getClientPresenceTopic mcpClientId)]
    let cb := if s.hasDisconnectedCallback then [MqttAction.clientDisconnected mcpClientId]
              else []
    (s', acts ++ cb)

/-- `McpServer::handleDisconnectedNotification` (lines 494-497). -/
def handleDisconnectedNotification (s : ServerState) (mcpClientId : String) :
    ServerState × List MqttAction :=
  cleanupClientSession s mcpClientId

/-- `McpServer::handleInitializedNotification` (mcp_server.cpp lines 428-445):
marks the session initialized and invokes the client-connected callback —
on EVERY delivery while the session exists; the `initialized` flag is set
but never consulted. -/
def handleInitializedNotification (s : ServerState) (mcpClientId : String) :
    ServerState × List MqttAction :=
  match mapFind mcpClientId s.sessions with
  | none => (s, [])
  | some sess =>
    let s' := { s with
      sessions := mapInsert mcpClientId { sess with initialized := true } s.sessions }
    (s', if s.hasConnectedCallback then [MqttAction.clientConnected mcpClientId sess.clientInfo]
         else [])

/-- `McpServer::handlePing` (lines 447-452). -/
def handlePing (s : ServerState) (mcpClientId : String) (request : JsonRpcRequest) :
    ServerState × List MqttAction :=
  (s, [sendResponseAction s mcpClientId (JsonRpcResponse.success request.id (Json.obj []))])

/-- `McpServer::handleToolsList` (lines 454-463). -/
def handleToolsList (s : ServerState) (mcpClientId : String) (request : JsonRpcRequest) :
    ServerState × List MqttAction :=
  let result := Json.obj [("tools", s.toolMgr.getToolsJson)]
  (s, [sendResponseAction s mcpClientId (JsonRpcResponse.success request.id result)])

/-- `McpServer::handleToolsCall` (mcp_server.cpp lines 465-492).  The line
`std::string toolName = (*request.params)["name"];` throws when the value is
not a string — modelled by the Except bind. -/
def handleToolsCall (s : ServerState) (mcpClientId : String) (request : JsonRpcRequest) :
    Except String (ServerState × List MqttAction) :=
  let hasName := match request.params with
                 | some p => p.contains "name"
                 | none => false
  if !hasName then
    Except.ok (s, [sendResponseAction s mcpClientId
      (JsonRpcResponse.errorResponse request.id INVALID_PARAMS "Missing 'name' parameter")])
  else
    match request.params with
    | none => Except.ok (s, [])  -- unreachable: hasName forces params present
    | some p => do
      let toolName ← (p.get "name").asStringE
      let arguments := p.valueJ "arguments" (Json.obj [])
      let result := s.toolMgr.callTool toolName arguments
      Except.ok (s, [sendResponseAction s mcpClientId
        (JsonRpcResponse.success request.id result.toJson)])

/-- The result object of the initialize response (mcp_server.cpp lines
414-421): the server's compiled protocol version, the server capabilities
and the server info.  nlohmann key order: capabilities < protocolVersion <
serverInfo. -/
def initializeResult (s : ServerState) : Json :=
  Json.obj [("capabilities", s.capabilities.toJson),
            ("protocolVersion", Json.str MCP_PROTOCOL_VERSION),
            ("serverInfo", Json.obj [("name", Json.str s.serverInfo.name),
                                     ("version", Json.str s.serverInfo.version)])]

/-- mcp_server.cpp lines 372-377: `requestedVersion` starts as the compiled
constant and is overwritten by `params["protocolVersion"]` when present (a
conversion that throws on non-strings). -/
def readProtocolVersion (request : JsonRpcRequest) : Except String String :=
  match request.params with
  | some p =>
    if p.contains "protocolVersion" then (p.get "protocolVersion").asStringE
    else Except.ok MCP_PROTOCOL_VERSION
  | none => Except.ok MCP_PROTOCOL_VERSION

/-- mcp_server.cpp lines 384-391: clientInfo extraction via
`ci.value("name", "")` / `ci.value("version", "")` (each can throw). -/
def readClientInfo (request : JsonRpcRequest) : Except String ClientInfo :=
  match request.params with
  | some p =>
    if p.contains "clientInfo" then do
      let ci := p.get "clientInfo"
      let n ← ci.valueStr "name" ""
      let v ← ci.valueStr "version" ""
      Except.ok ({ name := n, version := v } : ClientInfo)
    else Except.ok ({} : ClientInfo)
  | none => Except.ok ({} : ClientInfo)

/-- mcp_server.cpp lines 392-395: capabilities copied verbatim when present
(default-constructed json, i.e. null, otherwise). -/
def readClientCaps (request : JsonRpcRequest) : Json :=
  match request.params with
  | some p => if p.contains "capabilities" then p.get "capabilities" else Json.null
  | none => Json.null

/-- `McpServer::handleInitialize` (mcp_server.cpp lines 369-426).  Effects in
program order: subscribe RPC topic (noLocal=true), subscribe client presence
topic (noLocal=false), store the session, then publish the response — whose
result carries the COMPILED protocol version, not the requested one. -/
def handleInitialize (s : ServerState) (mcpClientId : String) (request : JsonRpcRequest) :
    Except String (ServerState × List MqttAction) := do
  let requestedVersion ← readProtocolVersion request
  let clientInfo ← readClientInfo request
  let session : ClientSession :=
    { mcpClientId := mcpClientId, protocolVersion := requestedVersion,
      clientInfo := clientInfo, capabilities := readClientCaps request,
      initialized := false }
  let s' := { s with sessions := mapInsert mcpClientId session s.sessions }
  Except.ok (s',
    [MqttAction.subscribe (getRpcTopic s mcpClientId) 1 true,
     MqttAction.subscribe (getClientPresenceTopic mcpClientId) 1 false,
     sendResponseAction s mcpClientId
       (JsonRpcResponse.success request.id (initializeResult s))])

/-- `McpServer::handleRpcMessage` (mcp_server.cpp lines 279-341).  A message
is treated as a notification iff it has "method" and does NOT contain an
"id" key at all (an id of JSON null still counts as contained); otherwise it
goes down the request path. -/
def handleRpcMessage (s : ServerState) (topic : String) (payload : WirePayload) :
    Except String (ServerState × List MqttAction) :=
  match parseClientIdFromRpcTopic topic with
  | none => Except.ok (s, [])
  | some mcpClientId =>
    if payload.isEmptyStr then Except.ok (s, [])
    else
      match payload.parse with
      | none => Except.ok (s, [])
      | some j =>
        if j.contains "method" && !(j.contains "id") then do
          let method ← (j.get "method").asStringE
          if method == "notifications/initialized" then
            Except.ok (handleInitializedNotification s mcpClientId)
          else if method == "notifications/disconnected" then
            Except.ok (handleDisconnectedNotification s mcpClientId)
          else
            Except.ok (s, [])
        else
          match JsonRpcRequest.fromJson j with
          | none => Except.ok (s, [])
          | some request =>
            if request.method == "ping" then
              Except.ok (handlePing s mcpClientId request)
            else if request.method == "tools/list" then
              Except.ok (handleToolsList s mcpClientId request)
            else if request.method == "tools/call" then
              handleToolsCall s mcpClientId request
            else
              Except.ok (s, [sendResponseAction s mcpClientId
                (JsonRpcResponse.errorResponse request.id METHOD_NOT_FOUND
                  ("Method not found: " ++ request.method))])

/-- `McpServer::handleClientPresence` (mcp_server.cpp lines 343-367).  An
empty payload is only logged ("client offline"): no state change, no
effects.  A nonempty JSON payload with method "notifications/disconnected"
destroys the session. -/
def handleClientPresence (s : ServerState) (topic : String) (payload : WirePayload) :
    Except String (ServerState × List MqttAction) :=
  match parseClientIdFromPresenceTopic topic with
  | none => Except.ok (s, [])
  | some mcpClientId =>
    if !payload.isEmptyStr then
      match payload.parse with
      | some j =>
        if j.contains "method" then do
          let method ← (j.get "method").asStringE
          if method == "notifications/disconnected" then
            Except.ok (handleDisconnectedNotification s mcpClientId)
          else
            Except.ok (s, [])
        else
          Except.ok (s, [])
      | none => Except.ok (s, [])
    else
      Except.ok (s, [])

/-- `McpServer::handleControlMessage` (mcp_server.cpp lines 239-277).  The
client id comes from the MCP-MQTT-CLIENT-ID user property, falling back to
`params["mcpClientId"]` — a conversion that throws when the value is not a
string. -/
def handleControlMessage (s : ServerState) (payload : WirePayload)
    (userProps : List (String × String)) : Except String (ServerState × List MqttAction) :=
  match payload.parse with
  | none => Except.ok (s, [])
  | some j =>
    match JsonRpcRequest.fromJson j with
    | none => Except.ok (s, [])
    | some request => do
      let fromProps := (mapFind USER_PROP_MQTT_CLIENT_ID userProps).getD ""
      let mcpClientId ←
        if fromProps == "" then
          match request.params with
          | some p =>
            if p.contains "mcpClientId" then (p.get "mcpClientId").asStringE
            else pure ""
          | none => pure ""
        else pure fromProps
      if request.method == "initialize" && mcpClientId != "" then
        handleInitialize s mcpClientId request
      else
        Except.ok (s, [])

/-- `McpServer::handleIncomingMessage` (mcp_server.cpp lines 206-237): topic
routing.  No try/catch anywhere on this path: an `Except.error` models a C++
exception escaping the engine into the MQTT client's delivery thread. -/
def handleIncomingMessage (s : ServerState) (msg : MqttIncomingMessage) :
    Except String (ServerState × List MqttAction) :=
  if !(isMcpTopic msg.topic) then Except.ok (s, [])
  else if strStartsWith msg.topic "$mcp-rpc/" then
    handleRpcMessage s msg.topic msg.payload
  else if msg.topic == getControlTopic s then
    handleControlMessage s msg.payload msg.userProperties
  else if strStartsWith msg.topic "$mcp-client/presence/" then
    handleClientPresence s msg.topic msg.payload
  else Except.ok (s, [])

/-! ## Trace accessors used by the theorems -/

def MqttAction.propsOf : MqttAction → List (String × String)
  | .publish _ _ _ _ ps => ps
  | _ => []

def MqttAction.isPublish : MqttAction → Bool
  | .publish _ _ _ _ _ => true
  | _ => false

def MqttAction.isSubscribe : MqttAction → Bool
  | .subscribe _ _ _ => true
  | _ => false

def MqttAction.isUnsubscribe : MqttAction → Bool
  | .unsubscribe _ => true
  | _ => false

/-- The payloads of the publish actions of a trace, in order. -/
def publishPayloads (l : List MqttAction) : List String :=
  l.filterMap (fun a => match a with
    | MqttAction.publish _ payload _ _ _ => some payload
    | _ => none)

/-- The actions of a handler outcome (none when the handler threw). -/
def actionsOf (r : Except String (ServerState × List MqttAction)) : Option (List MqttAction) :=
  match r with
  | Except.ok p => some p.2
  | Except.error _ => none

/-- The post-state of a handler outcome (none when the handler threw). -/
def stateOf (r : Except String (ServerState × List MqttAction)) : Option ServerState :=
  match r with
  | Except.ok p => some p.1
  | Except.error _ => none

/-! ## Concrete fixtures (the literal scenario of spec section 8: serverId
"s1", serverName "demo/calc", client "c1") -/

def sampleServer : ServerState :=
  { serverId := "s1", serverName := "demo/calc",
    serverInfo := { name := "srv", version := "1.0" },
    capabilities := {},
    onlineParams := { description := "calc server" },
    sessions := [], toolMgr := {},
    hasConnectedCallback := true, hasDisconnectedCallback := true }

def c1Session : ClientSession :=
  { mcpClientId := "c1", protocolVersion := MCP_PROTOCOL_VERSION,
    clientInfo := { name := "cli", version := "0.1" },
    capabilities := Json.obj [], initialized := false }

/-- `sampleServer` with one live session for client "c1". -/
def sessionState : ServerState :=
  { sampleServer with sessions := [("c1", c1Session)] }

/-- The JSON body of a client "notifications/disconnected" presence payload. -/
def disconnectedPayload : Json :=
  Json.obj [("jsonrpc", Json.str "2.0"), ("method", Json.str "notifications/disconnected")]

/-! ## Shared helper lemmas -/

theorem mapFind_mapInsert_self (k : String) (v : α) (l : List (String × α)) :
    mapFind k (mapInsert k v l) = some v := by
  induction l with
  | nil => simp [mapInsert, mapFind]
  | cons e es ih =>
    simp only [mapInsert]
    by_cases h1 : strLt k e.1 = true
    · simp [h1, mapFind]
    · by_cases h2 : k = e.1
      · subst h2
        simp [h1, mapFind]
      · have hne : (e.1 == k) = false := by
          simp [beq_iff_eq]
          exact fun h => h2 h.symm
        simp [h1, h2, mapFind, hne, ih]

/-- The effect trace of a successful `handleInitialize`: exactly the two
subscribes followed by the response publish. -/
theorem handleInitialize_ok_actions (s : ServerState) (cid : String)
    (request : JsonRpcRequest) (out : ServerState × List MqttAction)
    (hok : handleInitialize s cid request = Except.ok out) :
    out.2 = [MqttAction.subscribe (getRpcTopic s cid) 1 true,
             MqttAction.subscribe (getClientPresenceTopic cid) 1 false,
             sendResponseAction s cid
               (JsonRpcResponse.success request.id (initializeResult s))] := by
  cases hv : readProtocolVersion request with
  | error e => simp [handleInitialize, hv, bind, Except.bind] at hok
  | ok v =>
    cases hci : readClientInfo request with
    | error e => simp [handleInitialize, hv, hci, bind, Except.bind] at hok
    | ok ci =>
      simp [handleInitialize, hv, hci, bind, Except.bind] at hok
      rw [← hok]

/-- The post-state of a successful `handleInitialize`: the session is stored
under the client id with the REQUESTED protocol version. -/
theorem handleInitialize_ok_session (s : ServerState) (cid : String)
    (request : JsonRpcRequest) (out : ServerState × List MqttAction) (v : String)
    (hok : handleInitialize s cid request = Except.ok out)
    (hv : readProtocolVersion request = Except.ok v) :
    (mapFind cid out.1.sessions).map ClientSession.protocolVersion = some v := by
  cases hci : readClientInfo request with
  | error e => simp [handleInitialize, hv, hci, bind, Except.bind] at hok
  | ok ci =>
    simp [handleInitialize, hv, hci, bind, Except.bind] at hok
    rw [← hok]
    simp [mapFind_mapInsert_self]

/-! ## Claim C3 — session destruction always unsubscribes -/

/-- C3: the claim states that `cleanupClientSession` unsubscribes from the
client's RPC and presence topics REGARDLESS of whether a session entry was
present.  The code returns early when the entry is absent, performing no
unsubscribe at all; when the entry is present the unsubscribes (and the
disconnected callback) do happen.  This theorem evaluates both cases. -/
theorem cleanup_skips_unsubscribes_when_session_absent :
    cleanupClientSession sampleServer "ghost" = (sampleServer, [])
    ∧ ((cleanupClientSession sampleServer "ghost").2.any MqttAction.isUnsubscribe) = false
    ∧ (cleanupClientSession sessionState "c1").2 =
        [MqttAction.unsubscribe "$mcp-rpc/c1/s1/demo/calc",
         MqttAction.unsubscribe "$mcp-client/presence/c1",
         MqttAction.clientDisconnected "c1"] := by
  exact ⟨rfl, rfl, rfl⟩

/-! ## Claim C4 — empty presence payload does not destroy the session -/

/-- C4 counterexample: client "c1" has a live session; an empty payload
delivered on its presence topic leaves the state unchanged and produces no
unsubscribe and no disconnected callback — the session is not destroyed,
contradicting the claim. -/
theorem empty_presence_payload_noop_cex :
    handleClientPresence sessionState "$mcp-client/presence/c1" WirePayload.empty =
      Except.ok (sessionState, [])
    ∧ mapFind "c1" sessionState.sessions = some c1Session := by
  exact ⟨rfl, rfl⟩

/-- C4 (amended): an empty payload on a client's presence topic is
informational only — the state and the subscription set are untouched and no
callback fires; the session is destroyed by a presence payload only when the
payload is a nonempty JSON message with method "notifications/disconnected". -/
theorem presence_empty_is_informational (s : ServerState) (topic cid : String)
    (h : parseClientIdFromPresenceTopic topic = some cid) :
    handleClientPresence s topic WirePayload.empty = Except.ok (s, [])
    ∧ handleClientPresence s topic (WirePayload.wellFormed disconnectedPayload) =
        Except.ok (handleDisconnectedNotification s cid) := by
  refine ⟨?_, ?_⟩
  · simp only [handleClientPresence, h]
    rfl
  · simp only [handleClientPresence, h]
    rfl

/-- Witness for C4 (amended) at the concrete fixture. -/
theorem presence_empty_is_informational_witness :
    handleClientPresence sessionState "$mcp-client/presence/c1" WirePayload.empty =
      Except.ok (sessionState, [])
    ∧ handleClientPresence sessionState "$mcp-client/presence/c1"
        (WirePayload.wellFormed disconnectedPayload) =
      Except.ok (handleDisconnectedNotification sessionState "c1") :=
  presence_empty_is_informational sessionState "$mcp-client/presence/c1" "c1" rfl

/-! ## Claim C5 — client-connected callback fires once per session -/

/-- C5: the claim states the client-connected callback fires exactly once
per session.  The code marks the session initialized but never consults the
flag: a second "notifications/initialized" for the same (still existing)
session fires the callback AGAIN.  Both deliveries below produce a
clientConnected invocation. -/
theorem initialized_callback_fires_again_on_repeat :
    (handleInitializedNotification sessionState "c1").2 =
      [MqttAction.clientConnected "c1" { name := "cli", version := "0.1" }]
    ∧ (handleInitializedNotification
         (handleInitializedNotification sessionState "c1").1 "c1").2 =
      [MqttAction.clientConnected "c1" { name := "cli", version := "0.1" }]
    ∧ (mapFind "c1" ((handleInitializedNotification sessionState "c1").1).sessions).map
        ClientSession.initialized = some true := by
  exact ⟨rfl, rfl, rfl⟩

/-! ## Claim C6 — a JSON null id is not treated as a notification -/

/-- An RPC payload with method "notifications/initialized" and an id field
that is JSON null. -/
def nullIdInitializedMsg : Json :=
  Json.obj [("id", Json.null), ("jsonrpc", Json.str "2.0"),
            ("method", Json.str "notifications/initialized")]

/-- An RPC payload with method "notifications/initialized" and no id field. -/
def noIdInitializedMsg : Json :=
  Json.obj [("jsonrpc", Json.str "2.0"),
            ("method", Json.str "notifications/initialized")]

/-- C6: the claim states a null id is treated like an absent id (notification,
never answered).  The code's notification test is `contains("method") &&
!contains("id")`, so a null id goes down the request path: the codec maps the
null id to the monostate, the method is unknown to the request dispatch, and
a METHOD_NOT_FOUND response IS published (with id null), while the session is
not marked initialized and no callback fires.  An absent id, by contrast, is
processed as the notification. -/
theorem null_id_notification_is_answered :
    handleRpcMessage sessionState "$mcp-rpc/c1/s1/demo/calc"
        (WirePayload.wellFormed nullIdInitializedMsg) =
      Except.ok (sessionState,
        [sendResponseAction sessionState "c1"
          (JsonRpcResponse.errorResponse JsonRpcId.empty METHOD_NOT_FOUND
            "Method not found: notifications/initialized")])
    ∧ handleRpcMessage sessionState "$mcp-rpc/c1/s1/demo/calc"
        (WirePayload.wellFormed noIdInitializedMsg) =
      Except.ok (handleInitializedNotification sessionState "c1")
    ∧ (handleInitializedNotification sessionState "c1").2 =
      [MqttAction.clientConnected "c1" { name := "cli", version := "0.1" }] := by
  exact ⟨rfl, rfl, rfl⟩

/-! ## Claim C2 — user properties on server-originated publishes -/

/-- C2 counterexample: the presence-clearing publish (`clearPresence`) is a
server-originated publish, yet it is sent with an EMPTY user-property map —
neither MCP-COMPONENT-TYPE nor MCP-MQTT-CLIENT-ID is attached, although
every other publish carries them. -/
theorem clear_presence_has_no_props_cex :
    clearPresenceAction sampleServer =
      MqttAction.publish "$mcp-server/presence/s1/demo/calc" "" 1 true []
    ∧ mapFind USER_PROP_COMPONENT_TYPE (clearPresenceAction sampleServer).propsOf = none
    ∧ mapFind USER_PROP_MQTT_CLIENT_ID (clearPresenceAction sampleServer).propsOf = none
    ∧ mapFind USER_PROP_COMPONENT_TYPE (serverProps sampleServer) =
        some COMPONENT_TYPE_SERVER := by
  exact ⟨rfl, rfl, rfl, rfl⟩

/-- C2 (amended): every server-originated publish EXCEPT the presence-clearing
empty retained publish carries MCP-COMPONENT-TYPE="mcp-server" and
MCP-MQTT-CLIENT-ID=serverId: the retained online presence publish, every
response and every notification on a client's RPC topic do; the
presence-clearing publish (at shutdown and wherever else it is used) carries
no user properties at all.  The shutdown trace consists of exactly such
publishes. -/
theorem server_publish_props (s : ServerState) :
    (∀ cid r, (sendResponseAction s cid r).propsOf = serverProps s)
    ∧ (∀ cid n, (sendNotificationAction s cid n).propsOf = serverProps s)
    ∧ (publishPresenceAction s).propsOf = serverProps s
    ∧ (clearPresenceAction s).propsOf = []
    ∧ mapFind USER_PROP_COMPONENT_TYPE (serverProps s) = some COMPONENT_TYPE_SERVER
    ∧ mapFind USER_PROP_MQTT_CLIENT_ID (serverProps s) = some s.serverId
    ∧ (∀ a ∈ (stopServer s).2, a.isPublish = true →
        a.propsOf = serverProps s ∨ a = clearPresenceAction s) := by
  refine ⟨fun _ _ => rfl, fun _ _ => rfl, rfl, rfl, rfl, rfl, ?_⟩
  intro a ha hpub
  simp only [stopServer, List.mem_append, List.mem_map, List.mem_singleton,
    List.mem_cons, List.not_mem_nil, or_false] at ha
  rcases ha with (⟨e, _, rfl⟩ | rfl | rfl)
  · exact Or.inl rfl
  · exact Or.inr rfl
  · cases hpub

/-! ## Claim C7 — tool-call failures are tool-level results, not JSON-RPC errors -/

/-- C7: for a tools/call request whose params carry a string name, the reply
is always a JSON-RPC SUCCESS response wrapping the registry's
ToolCallResult; an unregistered name yields isError=true with text "Tool not
found: name"; a handler that throws std::exception yields isError=true
with text "Tool execution error: detail"; a handler that throws anything
else yields isError=true with text "Unknown error during tool execution".
No JSON-RPC error object is emitted in any of these cases. -/
theorem tools_call_failures_are_results (s : ServerState) (cid name : String)
    (request : JsonRpcRequest) (p : Json)
    (hp : request.params = some p) (hname : p.contains "name" = true)
    (hget : p.get "name" = Json.str name) :
    handleToolsCall s cid request = Except.ok (s,
      [sendResponseAction s cid (JsonRpcResponse.success request.id
        ((s.toolMgr.callTool name (p.valueJ "arguments" (Json.obj []))).toJson))])
    ∧ (JsonRpcResponse.success request.id
        ((s.toolMgr.callTool name (p.valueJ "arguments" (Json.obj []))).toJson)).error = none
    ∧ (mapFind name s.toolMgr.handlers = none →
        s.toolMgr.callTool name (p.valueJ "arguments" (Json.obj []))
          = { content := [{ type := "text", text := "Tool not found: " ++ name }],
              isError := true })
    ∧ (∀ h w, mapFind name s.toolMgr.handlers = some h →
        h (p.valueJ "arguments" (Json.obj [])) = HandlerOutcome.exn w →
        s.toolMgr.callTool name (p.valueJ "arguments" (Json.obj []))
          = { content := [{ type := "text", text := "Tool execution error: " ++ w }],
              isError := true })
    ∧ (∀ h, mapFind name s.toolMgr.handlers = some h →
        h (p.valueJ "arguments" (Json.obj [])) = HandlerOutcome.panicOther →
        s.toolMgr.callTool name (p.valueJ "arguments" (Json.obj []))
          = { content := [{ type := "text", text := "Unknown error during tool execution" }],
              isError := true }) := by
  refine ⟨?_, rfl, ?_, ?_, ?_⟩
  · simp [handleToolsCall, hp, hname, hget, Json.asStringE, bind, Except.bind]
  · intro hnone
    simp [ToolManager.callTool, hnone, ToolCallResult.failure]
  · intro h w hfind hexn
    simp [ToolManager.callTool, hfind, hexn, ToolCallResult.failure]
  · intro h hfind hpanic
    simp [ToolManager.callTool, hfind, hpanic, ToolCallResult.failure]

/-- Fixtures for the C7 witness: a registry with a tool whose handler throws. -/
def throwingHandler : ToolHandler := fun _ => HandlerOutcome.exn "kaboom"

def c7State : ServerState :=
  { sampleServer with toolMgr :=
      { tools := [("boom", { name := "boom", description := "always throws" })],
        handlers := [("boom", throwingHandler)] } }

def c7Request : JsonRpcRequest :=
  { method := "tools/call", id := JsonRpcId.int 3,
    params := some (Json.obj [("name", Json.str "boom")]) }

/-- Witness for C7 at a concrete throwing tool. -/
theorem tools_call_failures_are_results_witness :
    handleToolsCall c7State "c1" c7Request = Except.ok (c7State,
      [sendResponseAction c7State "c1" (JsonRpcResponse.success c7Request.id
        ((c7State.toolMgr.callTool "boom"
          ((Json.obj [("name", Json.str "boom")]).valueJ "arguments" (Json.obj []))).toJson))])
    ∧ (JsonRpcResponse.success c7Request.id
        ((c7State.toolMgr.callTool "boom"
          ((Json.obj [("name", Json.str "boom")]).valueJ "arguments" (Json.obj []))).toJson)).error
        = none
    ∧ (mapFind "boom" c7State.toolMgr.handlers = none →
        c7State.toolMgr.callTool "boom"
          ((Json.obj [("name", Json.str "boom")]).valueJ "arguments" (Json.obj []))
          = { content := [{ type := "text", text := "Tool not found: " ++ "boom" }],
              isError := true })
    ∧ (∀ h w, mapFind "boom" c7State.toolMgr.handlers = some h →
        h ((Json.obj [("name", Json.str "boom")]).valueJ "arguments" (Json.obj []))
          = HandlerOutcome.exn w →
        c7State.toolMgr.callTool "boom"
          ((Json.obj [("name", Json.str "boom")]).valueJ "arguments" (Json.obj []))
          = { content := [{ type := "text", text := "Tool execution error: " ++ w }],
              isError := true })
    ∧ (∀ h, mapFind "boom" c7State.toolMgr.handlers = some h →
        h ((Json.obj [("name", Json.str "boom")]).valueJ "arguments" (Json.obj []))
          = HandlerOutcome.panicOther →
        c7State.toolMgr.callTool "boom"
          ((Json.obj [("name", Json.str "boom")]).valueJ "arguments" (Json.obj []))
          = { content := [{ type := "text", text := "Unknown error during tool execution" }],
              isError := true }) :=
  tools_call_failures_are_results c7State "c1" "boom" c7Request
    (Json.obj [("name", Json.str "boom")]) rfl rfl rfl

/-! ## Claim C1 — protocolVersion in the initialize response -/

/-- An initialize request asking for protocol version "1999-01-01". -/
def initRequest1999 : JsonRpcRequest :=
  { method := "initialize", id := JsonRpcId.int 1,
    params := some (Json.obj
      [("clientInfo", Json.obj [("name", Json.str "cli"), ("version", Json.str "0.1")]),
       ("protocolVersion", Json.str "1999-01-01")]) }

/-- C1 counterexample: the client asks for protocol version "1999-01-01";
the published response result carries the compiled constant "2024-11-05",
not the requested version — which is stored only in the session. -/
theorem initialize_version_echo_cex :
    actionsOf (handleInitialize sampleServer "c1" initRequest1999) =
      some [MqttAction.subscribe "$mcp-rpc/c1/s1/demo/calc" 1 true,
            MqttAction.subscribe "$mcp-client/presence/c1" 1 false,
            MqttAction.publish "$mcp-rpc/c1/s1/demo/calc"
              (serialize (JsonRpcResponse.success (JsonRpcId.int 1)
                (initializeResult sampleServer)).toJson)
              1 false (serverProps sampleServer)]
    ∧ (initializeResult sampleServer).get "protocolVersion" = Json.str "2024-11-05"
    ∧ (mapFind "c1"
        ((stateOf (handleInitialize sampleServer "c1" initRequest1999)).getD
          sampleServer).sessions).map ClientSession.protocolVersion = some "1999-01-01"
    ∧ ("2024-11-05" : String) ≠ "1999-01-01" := by
  exact ⟨rfl, rfl, rfl, by decide⟩

/-- Spec-side reading of "the version the client asked for, with the server's
compiled version used when the client supplied none": `none` when the request
carries a non-string protocolVersion (where the code throws). -/
def specRequestedVersion (request : JsonRpcRequest) : Option String :=
  match request.params with
  | some p =>
    if p.contains "protocolVersion" then
      match p.get "protocolVersion" with
      | Json.str v => some v
      | _ => none
    else some MCP_PROTOCOL_VERSION
  | none => some MCP_PROTOCOL_VERSION

theorem specRequestedVersion_readProtocolVersion (request : JsonRpcRequest) (v : String)
    (h : specRequestedVersion request = some v) :
    readProtocolVersion request = Except.ok v := by
  unfold specRequestedVersion at h
  unfold readProtocolVersion
  cases hp : request.params with
  | none => simp [hp] at h; simp [h]
  | some p =>
    rw [hp] at h
    by_cases hc : p.contains "protocolVersion" = true
    · simp only [hc, if_true] at h ⊢
      cases hg : p.get "protocolVersion" with
      | null => simp [hg] at h
      | bool b => simp [hg] at h
      | num n => simp [hg] at h
      | arr xs => simp [hg] at h
      | obj fs => simp [hg] at h
      | str t =>
        rw [hg] at h
        simp only [Option.some.injEq] at h
        simp [Json.asStringE, h]
    · simp only [Bool.not_eq_true] at hc
      simp [hc] at h ⊢
      simp [h]

/-- C1 (amended): the success response published on the client's RPC topic
carries result.protocolVersion equal to the server's COMPILED protocol
version constant "2024-11-05", regardless of the version the client asked
for; the requested version (the compiled constant when none was supplied) is
recorded only in the stored session's protocolVersion field. -/
theorem initialize_response_has_compiled_version (s : ServerState) (cid : String)
    (request : JsonRpcRequest) (out : ServerState × List MqttAction) (v : String)
    (hok : handleInitialize s cid request = Except.ok out)
    (hv : specRequestedVersion request = some v) :
    publishPayloads out.2 =
      [serialize (JsonRpcResponse.success request.id (initializeResult s)).toJson]
    ∧ (initializeResult s).get "protocolVersion" = Json.str MCP_PROTOCOL_VERSION
    ∧ (mapFind cid out.1.sessions).map ClientSession.protocolVersion = some v := by
  refine ⟨?_, rfl, ?_⟩
  · rw [handleInitialize_ok_actions s cid request out hok]
    rfl
  · exact handleInitialize_ok_session s cid request out v hok
      (specRequestedVersion_readProtocolVersion request v hv)

/-- The concrete outcome of the fixture initialize call. -/
def initOut1999 : ServerState × List MqttAction :=
  ((handleInitialize sampleServer "c1" initRequest1999).toOption).getD (sampleServer, [])

/-- Witness for C1 (amended) at the concrete fixture. -/
theorem initialize_response_has_compiled_version_witness :
    publishPayloads initOut1999.2 =
      [serialize (JsonRpcResponse.success initRequest1999.id
        (initializeResult sampleServer)).toJson]
    ∧ (initializeResult sampleServer).get "protocolVersion" = Json.str MCP_PROTOCOL_VERSION
    ∧ (mapFind "c1" initOut1999.1.sessions).map ClientSession.protocolVersion =
        some "1999-01-01" :=
  initialize_response_has_compiled_version sampleServer "c1" initRequest1999 initOut1999
    "1999-01-01" rfl rfl

/-! ## Claim C9 — subscribes complete before the initialize response publish -/

/-- C9: in the effect trace of a successful handleInitialize, every publish
occurs strictly after every subscribe: the RPC-topic subscribe
(noLocal=true) and the client-presence-topic subscribe (noLocal=false) are
issued before the initialize response is published. -/
theorem initialize_subscribes_precede_publish (s : ServerState) (cid : String)
    (request : JsonRpcRequest) (out : ServerState × List MqttAction)
    (i j : Nat) (a b : MqttAction)
    (hok : handleInitialize s cid request = Except.ok out)
    (ha : out.2.get? i = some a) (hb : out.2.get? j = some b)
    (hpub : a.isPublish = true) (hsub : b.isSubscribe = true) : j < i := by
  have hacts := handleInitialize_ok_actions s cid request out hok
  rw [hacts] at ha hb
  rcases i with _ | _ | _ | i
  · injection ha with h
    subst h
    simp [MqttAction.isPublish] at hpub
  · injection ha with h
    subst h
    simp [MqttAction.isPublish] at hpub
  · rcases j with _ | _ | _ | j
    · exact Nat.zero_lt_succ _
    · exact Nat.succ_lt_succ (Nat.zero_lt_succ _)
    · injection hb with h
      subst h
      simp [MqttAction.isSubscribe, sendResponseAction] at hsub
    · simp [List.get?] at hb
  · simp [List.get?] at ha

/-- Witness for C9 at the concrete fixture: the subscribe at index 0
precedes the publish at index 2. -/
theorem initialize_subscribes_precede_publish_witness : (0 : Nat) < 2 :=
  initialize_subscribes_precede_publish sampleServer "c1" initRequest1999 initOut1999 2 0
    (sendResponseAction sampleServer "c1"
      (JsonRpcResponse.success initRequest1999.id (initializeResult sampleServer)))
    (MqttAction.subscribe (getRpcTopic sampleServer "c1") 1 true)
    rfl rfl rfl rfl rfl

/-! ## Claim C10 — tool listing order -/

theorem charListLt_iff_lt (as bs : List Char) : charListLt as bs = true ↔ List.lt as bs := by
  induction as generalizing bs with
  | nil =>
    cases bs with
    | nil =>
      simp only [charListLt, Bool.false_eq_true, false_iff]
      intro h
      cases h
    | cons b bs =>
      simp only [charListLt, true_iff]
      exact List.lt.nil b bs
  | cons a as ih =>
    cases bs with
    | nil =>
      simp only [charListLt, Bool.false_eq_true, false_iff]
      intro h
      cases h
    | cons b bs =>
      simp only [charListLt]
      by_cases hab : a < b
      · simp only [hab, if_true, true_iff]
        exact List.lt.head as bs hab
      · by_cases hba : b < a
        · simp only [hab, hba, if_false, if_true, Bool.false_eq_true, false_iff]
          intro h
          cases h with
          | head _ _ h => exact hab h
          | tail h1 h2 h3 => exact h2 hba
        · simp only [hab, hba, if_false, ih]
          constructor
          · intro h
            exact List.lt.tail hab hba h
          · intro h
            cases h with
            | head _ _ hh => exact absurd hh hab
            | tail _ _ h3 => exact h3

/-- `strLt` decides String `<` (std::string comparison matches it
byte-for-byte on ASCII). -/
theorem strLt_iff_lt (a b : String) : strLt a b = true ↔ a < b := by
  rw [String.lt_iff_toList_lt]
  constructor
  · intro h
    exact (List.lt_iff_lex_lt a.data b.data).mp ((charListLt_iff_lt a.data b.data).mp h)
  · intro h
    exact (charListLt_iff_lt a.data b.data).mpr ((List.lt_iff_lex_lt a.data b.data).mpr h)

theorem chain'_names_of_WF (l : List (String × Tool))
    (hs : List.Chain' (fun a b => strLt a.1 b.1 = true) l)
    (hn : ∀ e ∈ l, (e.2).name = e.1) :
    List.Chain' (fun a b : Tool => a.name < b.name) (l.map (fun e => e.2)) := by
  induction l with
  | nil => simp
  | cons e es ih =>
    cases es with
    | nil => simp
    | cons f fs =>
      simp only [List.map_cons, List.chain'_cons] at *
      obtain ⟨hef, hrest⟩ := hs
      refine ⟨?_, ih hrest (fun x hx => hn x (by simp [hx]))⟩
      have he : (e.2).name = e.1 := hn e (by simp)
      have hf : (f.2).name = f.1 := hn f (by simp)
      rw [he, hf]
      exact (strLt_iff_lt e.1 f.1).mp hef

theorem strLt_trans (a b c : String) (h1 : strLt a b = true) (h2 : strLt b c = true) :
    strLt a c = true := by
  rw [strLt_iff_lt] at h1 h2 ⊢
  exact lt_trans h1 h2

theorem strLt_total_of_ne (a b : String) (h1 : ¬ strLt a b = true) (h2 : a ≠ b) :
    strLt b a = true := by
  rw [strLt_iff_lt] at h1 ⊢
  rcases lt_trichotomy a b with h | h | h
  · exact absurd h h1
  · exact absurd h h2
  · exact h

theorem mem_mapInsert (k : String) (v : α) (l : List (String × α)) (x : String × α)
    (hx : x ∈ mapInsert k v l) : x = (k, v) ∨ x ∈ l := by
  induction l with
  | nil => simpa [mapInsert] using hx
  | cons e es ih =>
    simp only [mapInsert] at hx
    by_cases h1 : strLt k e.1 = true
    · rw [if_pos h1] at hx
      rcases List.mem_cons.mp hx with rfl | hx'
      · exact Or.inl rfl
      · exact Or.inr hx'
    · rw [if_neg h1] at hx
      by_cases h2 : (k == e.1) = true
      · rw [if_pos h2] at hx
        rcases List.mem_cons.mp hx with rfl | hx'
        · exact Or.inl rfl
        · exact Or.inr (List.mem_cons_of_mem e hx')
      · rw [if_neg h2] at hx
        rcases List.mem_cons.mp hx with rfl | hx'
        · exact Or.inr (List.mem_cons_self x es)
        · rcases ih hx' with h | h
          · exact Or.inl h
          · exact Or.inr (List.mem_cons_of_mem e h)

theorem pairwise_mapInsert (k : String) (v : α) (l : List (String × α))
    (h : l.Pairwise (fun a b => strLt a.1 b.1 = true)) :
    (mapInsert k v l).Pairwise (fun a b => strLt a.1 b.1 = true) := by
  induction l with
  | nil => simp [mapInsert]
  | cons e es ih =>
    rcases List.pairwise_cons.mp h with ⟨he, hes⟩
    simp only [mapInsert]
    by_cases h1 : strLt k e.1 = true
    · rw [if_pos h1]
      refine List.pairwise_cons.mpr ⟨?_, h⟩
      intro x hx
      rcases List.mem_cons.mp hx with rfl | hx'
      · exact h1
      · exact strLt_trans k e.1 x.1 h1 (he x hx')
    · rw [if_neg h1]
      by_cases h2 : (k == e.1) = true
      · have hk : k = e.1 := by simpa [beq_iff_eq] using h2
        rw [if_pos h2]
        refine List.pairwise_cons.mpr ⟨?_, hes⟩
        intro x hx
        rw [hk]
        exact he x hx
      · have hne : k ≠ e.1 := by simpa [beq_iff_eq] using h2
        rw [if_neg h2]
        refine List.pairwise_cons.mpr ⟨?_, ih hes⟩
        intro x hx
        rcases mem_mapInsert k v es x hx with rfl | hx'
        · exact strLt_total_of_ne k e.1 h1 hne
        · exact he x hx'

theorem chain'_keys_iff_pairwise (l : List (String × α)) :
    List.Chain' (fun a b => strLt a.1 b.1 = true) l ↔
    l.Pairwise (fun a b => strLt a.1 b.1 = true) := by
  haveI : IsTrans (String × α) (fun a b => strLt a.1 b.1 = true) :=
    ⟨fun a b c h1 h2 => strLt_trans a.1 b.1 c.1 h1 h2⟩
  exact List.chain'_iff_pairwise

theorem mapErase_sublist (k : String) (l : List (String × α)) :
    (mapErase k l).Sublist l := by
  induction l with
  | nil => simp [mapErase]
  | cons e es ih =>
    simp only [mapErase]
    by_cases h : (e.1 == k) = true
    · rw [if_pos h]
      exact List.sublist_cons_self e es
    · rw [if_neg h]
      exact ih.cons₂ e

/-- The empty registry is well-formed (start state of the ToolManager). -/
theorem emptyToolManager_WF : (({} : ToolManager)).WF := by
  exact ⟨List.chain'_nil, by intro e he; cases he⟩

/-- `registerTool` preserves the std::map representation invariant (it
inserts the tool under its own name, only when absent). -/
theorem registerTool_WF (m : ToolManager) (t : Tool) (h : ToolHandler) (hwf : m.WF) :
    ((m.registerTool t h).2).WF := by
  obtain ⟨h1, h2⟩ := hwf
  unfold ToolManager.registerTool
  cases hf : mapFind t.name m.tools with
  | some _ => exact ⟨h1, h2⟩
  | none =>
    refine ⟨?_, ?_⟩
    · exact (chain'_keys_iff_pairwise _).mpr
        (pairwise_mapInsert _ _ _ ((chain'_keys_iff_pairwise _).mp h1))
    · intro e he
      rcases mem_mapInsert _ _ _ _ he with rfl | he'
      · rfl
      · exact h2 e he'

/-- `unregisterTool` preserves the std::map representation invariant. -/
theorem unregisterTool_WF (m : ToolManager) (name : String) (hwf : m.WF) :
    (m.unregisterTool name).WF := by
  obtain ⟨h1, h2⟩ := hwf
  refine ⟨?_, ?_⟩
  · exact (chain'_keys_iff_pairwise _).mpr
      (List.Pairwise.sublist (mapErase_sublist name m.tools)
        ((chain'_keys_iff_pairwise _).mp h1))
  · intro e he
    exact h2 e ((mapErase_sublist name m.tools).subset he)

/-- C10: on any registry state satisfying the std::map representation
invariant, getTools returns the registered tools in strictly ascending
lexicographic order of tool name, and getToolsJson is exactly the
element-wise toJson image of getTools (same tools, same order). -/
theorem getTools_sorted_and_json_agrees (m : ToolManager) (hwf : m.WF) :
    List.Chain' (fun a b : Tool => a.name < b.name) m.getTools
    ∧ m.getToolsJson = Json.arr (m.getTools.map Tool.toJson) := by
  constructor
  · exact chain'_names_of_WF m.tools hwf.1 hwf.2
  · simp [ToolManager.getToolsJson, ToolManager.getTools, List.map_map]

/-- Fixtures for the C10 witness: two tools registered in reverse name
order. -/
def addHandler : ToolHandler := fun _ => HandlerOutcome.ok (ToolCallResult.succeed "5")

def subHandler : ToolHandler := fun _ => HandlerOutcome.ok (ToolCallResult.succeed "1")

def twoToolMgr : ToolManager :=
  ((({} : ToolManager).registerTool { name := "subtract" } subHandler).2.registerTool
    { name := "add" } addHandler).2

/-- Witness for C10 at a concrete two-tool registry (registered out of
order; listed sorted). -/
theorem getTools_sorted_and_json_agrees_witness :
    List.Chain' (fun a b : Tool => a.name < b.name) twoToolMgr.getTools
    ∧ twoToolMgr.getToolsJson = Json.arr (twoToolMgr.getTools.map Tool.toJson) :=
  getTools_sorted_and_json_agrees twoToolMgr
    ⟨by
      show List.Chain' (fun a b => strLt a.1 b.1 = true)
        [("add", ({ name := "add" } : Tool)), ("subtract", { name := "subtract" })]
      exact List.chain'_cons.mpr ⟨rfl, List.chain'_singleton _⟩,
     by decide⟩

/-! ## Claim C8 — faults escaping the engine boundary -/

/-- A well-formed tools/call whose params.name is a number, not a string. -/
def badToolCallMsg : Json :=
  Json.obj [("id", Json.num 7), ("jsonrpc", Json.str "2.0"),
            ("method", Json.str "tools/call"),
            ("params", Json.obj [("name", Json.num 42)])]

/-- A well-formed control initialize whose params.mcpClientId is a number. -/
def badControlMsg : Json :=
  Json.obj [("id", Json.num 8), ("jsonrpc", Json.str "2.0"),
            ("method", Json.str "initialize"),
            ("params", Json.obj [("mcpClientId", Json.num 42)])]

/-- C8: the claim states the engine's message handler never propagates a
fault past the engine boundary.  The delivery path has no try/catch, and
both messages below make a nlohmann string conversion throw — a tools/call
whose params.name is not a string (from handleToolsCall) and a control
message whose params.mcpClientId is not a string (from
handleControlMessage).  Each delivery evaluates to an escaping exception,
not to a drop or a synthesized error response. -/
theorem engine_lets_type_errors_escape :
    handleIncomingMessage sessionState
      { topic := "$mcp-rpc/c1/s1/demo/calc",
        payload := WirePayload.wellFormed badToolCallMsg } =
      Except.error "nlohmann type_error 302: type must be string"
    ∧ handleIncomingMessage sessionState
      { topic := "$mcp-server/s1/demo/calc",
        payload := WirePayload.wellFormed badControlMsg } =
      Except.error "nlohmann type_error 302: type must be string" := by
  exact ⟨rfl, rfl⟩

end McpMqtt
